import Mathlib

/-!
Shallow embedding of the streaming conversation orchestration engine of the
AI-ChatBot repository.

Embedded source files:
  app/llm/llm.py              (LlmClient.llm_text_response, LlmClient.llm_text_begin_message,
                               LlmClient._create_yield_response, LlmClient._handle_function_call)
  app/llm/tools/llm_tools.py  (Tools registry: name to handler descriptor with is_sync flag)
  app/api/sse.py              (event_generator consumer loop, _enqueue_chat_messages producer loop)
  app/utils/api_utils.py      (send_ping_pong_messages keepalive, process_messages)

External collaborators are modelled as oracle parameters: the Azure model stream
is a value describing the chunks that arrived and how the stream ended, the
json.loads library call is a parameter of type String to Option JObj, the tool
handlers are a parameter giving the awaited result of each call, and the client
disconnect poll is a schedule of observed boolean values.  Redis writes,
save_chat_message and logging are fire-and-forget side effects with no influence
on the event stream, and are omitted; the message id returned by the awaited
save_chat_message and the wall-clock timestamps are fixed representative values,
since no control flow depends on them.
-/

/-- Python exceptions that propagate between the embedded functions. -/
inductive PyError
  | nameError
  | attributeError
  | jsonDecodeError
  | toolError
deriving DecidableEq

/-- The response local of llm_text_response is either an accumulated string of
content deltas, or the list returned by re.findall on the your_response
pattern (the code assigns the whole match list to the same variable). -/
inductive RespBuf
  | str (s : String)
  | list (l : List String)
deriving DecidableEq

/-- The Event dictionary built by LlmClient._create_yield_response.  The answer
field keeps the union type of the Python response value. -/
structure Event where
  coach_id : String
  answer : RespBuf
  user_id : String
  status : String
  message_id : Option Nat
  is_final : Bool
  time_stamp : Nat
deriving DecidableEq

/-- Coach identity of the turn (LlmClient instance field); the claims do not
depend on its value, so one representative is fixed. -/
def coachIdent : String := "coach"

/-- User identity of the turn (LlmClient instance field). -/
def userIdent : String := "user"

/-- Representative wall-clock timestamp (datetime.now): no control flow depends
on timestamps. -/
def nowStamp : Nat := 0

/-- Representative message id returned by the awaited save_chat_message call. -/
def savedMessageId : Option Nat := some 0

/-- LlmClient._create_yield_response: builds the Event dictionary; is_final is
true exactly when status equals the string done. -/
def createYieldResponse (response : RespBuf) (status : String)
    (message_id : Option Nat) (time_stamp : Nat) : Event :=
  { coach_id := coachIdent
  , answer := response
  , user_id := userIdent
  , status := status
  , message_id := message_id
  , is_final := status == "done"
  , time_stamp := time_stamp }

/-! Embedding of re.findall applied to the pattern that extracts the
your_response aside from the partially accumulated JSON argument text
(llm.py lines 533 to 535).  The pattern is: the literal quote your_response
quote colon, then any run of whitespace, then a quoted run of one or more
non-quote characters, captured.  findall scans left to right and continues
after the end of each match. -/

/-- Characters of the literal part of the pattern: quote your_response quote colon. -/
def yrLit : List Char := "\x22your_response\x22:".data

/-- Python regex whitespace class. -/
def isPySpace (c : Char) : Bool :=
  c = ' ' || c = '\t' || c = '\n' || c = '\r' || c = Char.ofNat 11 || c = Char.ofNat 12

/-- Match a literal list of characters at the head, returning the remainder. -/
def dropLit : List Char → List Char → Option (List Char)
  | [], cs => some cs
  | _ :: _, [] => none
  | l :: ls, c :: cs => if l = c then dropLit ls cs else none

/-- Skip a maximal run of regex whitespace. -/
def dropPySpace : List Char → List Char
  | [] => []
  | c :: cs => if isPySpace c then dropPySpace cs else c :: cs

/-- Split off the maximal run of non-quote characters. -/
def spanNonQuote : List Char → List Char × List Char
  | [] => ([], [])
  | c :: cs =>
    if c = '"' then ([], c :: cs)
    else
      let p := spanNonQuote cs
      (c :: p.1, p.2)

/-- Try to match the whole pattern at the head; on success return the captured
group and the remainder after the match. -/
def tryMatchYR (cs : List Char) : Option (List Char × List Char) :=
  match dropLit yrLit cs with
  | none => none
  | some r1 =>
    match dropPySpace r1 with
    | '"' :: r3 =>
      match spanNonQuote r3 with
      | ([], _) => none
      | (cap, r4) =>
        match r4 with
        | '"' :: r5 => some (cap, r5)
        | _ => none
    | _ => none

/-- Scan for all matches; the fuel starts at the length of the text and each
step consumes at least one character, so the fuel never runs out first. -/
def findAllYRAux : Nat → List Char → List (List Char)
  | 0, _ => []
  | _, [] => []
  | Nat.succ n, c :: cs =>
    match tryMatchYR (c :: cs) with
    | some (cap, rest) => cap :: findAllYRAux n rest
    | none => findAllYRAux n cs

/-- re.findall of the your_response pattern over a string. -/
def findYourResponse (s : String) : List String :=
  (findAllYRAux s.length s.data).map (fun cs => String.mk cs)

/-! The model stream, as consumed by the loop of llm_text_response
(llm.py lines 518 to 540). -/

/-- One streamed tool_calls delta: either the start of a call (the delta carries
a truthy id, plus an optional function name) or an argument continuation (no
id; optional raw argument text). -/
inductive ToolDelta
  | start (id : String) (name : Option String)
  | args (arguments : Option String)
deriving DecidableEq

/-- One chunk of the model stream: hasChoices models len of choices being
nonzero; a chunk may carry a tool delta, a content delta, both or neither. -/
structure Chunk where
  hasChoices : Bool
  tool : Option ToolDelta
  content : Option String
deriving DecidableEq

/-- The func_call dictionary opened by a tool-call-start fragment. -/
structure FuncCall where
  id : String
  funcName : String
deriving DecidableEq

/-- State of the streaming loop of llm_text_response: the open func_call, the
accumulated raw argument text, the response buffer, and the in-progress events
yielded so far. -/
structure StreamState where
  funcCall : Option FuncCall
  funcArguments : String
  response : RespBuf
  events : List Event
deriving DecidableEq

/-- Loop state at entry: func_call is the empty dict, func_arguments and
response are empty strings, nothing yielded yet. -/
def initState : StreamState :=
  { funcCall := none, funcArguments := "", response := RespBuf.str "", events := [] }

/-- Python response += delta: string concatenation on a str value, element-wise
extension with the individual characters on a list value. -/
def respAppend (r : RespBuf) (s : String) : RespBuf :=
  match r with
  | RespBuf.str t => RespBuf.str (t ++ s)
  | RespBuf.list l => RespBuf.list (l ++ s.data.map (fun c => String.mk [c]))

/-- The content branch of the loop body (llm.py lines 537 to 540): append the
delta to the response buffer and yield an in-progress event carrying the
buffer so far. -/
def contentStep (st : StreamState) (c : Option String) : StreamState :=
  match c with
  | none => st
  | some t =>
    let r := respAppend st.response t
    { st with response := r
            , events := st.events ++ [createYieldResponse r "in-progress" none nowStamp] }

/-- The tool_calls branch of the loop body (llm.py lines 521 to 535).  A start
delta while func_call is already set is the break statement, encoded as none.
An argument delta appends to func_arguments and re-scans the buffer for the
your_response aside, overwriting the response buffer when matches exist. -/
def toolStep (st : StreamState) (td : ToolDelta) : Option StreamState :=
  match td with
  | ToolDelta.start id name =>
    match st.funcCall with
    | some _ => none
    | none => some { st with funcCall := some { id := id, funcName := name.getD "" } }
  | ToolDelta.args a =>
    let fa := st.funcArguments ++ a.getD ""
    let ms := findYourResponse fa
    some { st with funcArguments := fa
                 , response := if ms.isEmpty then st.response else RespBuf.list ms }

/-- The async for loop of llm_text_response over the stream chunks.  A chunk
with no choices is skipped; the break on a second tool-call start abandons the
rest of the stream, including the content branch of the breaking chunk. -/
def processChunks : List Chunk → StreamState → StreamState
  | [], st => st
  | ch :: rest, st =>
    if ch.hasChoices then
      match ch.tool with
      | none => processChunks rest (contentStep st ch.content)
      | some td =>
        match toolStep st td with
        | none => st
        | some st2 => processChunks rest (contentStep st2 ch.content)
    else processChunks rest st

/-- Python truthiness of the response union value. -/
def truthy : RespBuf → Bool
  | RespBuf.str s => !(s == "")
  | RespBuf.list l => !l.isEmpty

/-- llm.py lines 542 to 543: if response is truthy and is not a str, replace it
by its first element. -/
def pyNormalize (r : RespBuf) : RespBuf :=
  if truthy r then
    match r with
    | RespBuf.str s => RespBuf.str s
    | RespBuf.list l => RespBuf.str (l.headD "")
  else r

/-! The tool registry (app/llm/tools/llm_tools.py, Tools.__init__). -/

/-- Registry descriptor: the handler itself is external, only the is_sync flag
drives control flow. -/
structure ToolEntry where
  isSync : Bool
deriving DecidableEq

/-- Tools.functions: the dict from tool name to descriptor.  get on any other
name returns None. -/
def toolsFunctions (name : String) : Option ToolEntry :=
  if name == "Action_items" then some { isSync := true }
  else if name == "Find_content" then some { isSync := true }
  else if name == "Role_To_Skill" then some { isSync := true }
  else if name == "Prepare_Plan" then some { isSync := false }
  else none

/-- A parsed JSON object as a list of key and value pairs; the values are kept
abstract as strings since the orchestrator only filters on keys and forwards
the values to the external handler. -/
abbrev JObj := List (String × String)

/-- The dict comprehension of llm.py line 673: drop the your_response key. -/
def stripYourResponse (o : JObj) : JObj :=
  o.filter (fun kv => !(kv.1 == "your_response"))

/-- Result of awaiting a synchronous tool handler: the pair of content and
callback flag, or an exception raised by the handler. -/
inductive ToolBehavior
  | ok (content : String) (callback : Bool)
  | raises
deriving DecidableEq

/-- Outcome of one streaming chat.completions.create call: the chunks that were
delivered, and how the stream ended.  badRequest models openai.BadRequestError;
isContentFilter is the conjunction of status 400 and body code content_filter;
bodyMessage is the message field of the error body when present. -/
inductive ModelOutcome
  | ok (chunks : List Chunk)
  | badRequest (chunks : List Chunk) (isContentFilter : Bool) (bodyMessage : Option String)
  | genericError (chunks : List Chunk)
deriving DecidableEq

/-- llm.py line 558: the terminal text for a content-filter rejection is the
message field of the error body when the body has one, else a fixed fallback
(the fallback below is verbatim from the source, including the typo hab). -/
def contentFilterText : Option String → String
  | some m => m
  | none => "I\x27m sorry, your query hab been filtered by azure content policy. Please try again."

/-- LlmClient._handle_function_call (llm.py lines 645 to 709).  The recursive
llm_text_response generator used on the callback path is passed in as the list
of events it yields (continuationEvents).  Errors are re-raised by the except
block of the source and propagate to the caller: an unknown tool name makes
functions.get return None and the subsequent get of the function key raise
AttributeError; a malformed buffer makes json.loads raise; a raising handler
propagates.  In every error case nothing has been yielded yet. -/
def handleFunctionCall (jparse : String → Option JObj)
    (toolBeh : String → JObj → ToolBehavior)
    (fc : FuncCall) (funcArguments : String) (asyncTools : Bool) (resp : RespBuf)
    (continuationEvents : List Event) : Except PyError (List Event) :=
  match toolsFunctions fc.funcName with
  | none => Except.error PyError.attributeError
  | some entry =>
    match jparse funcArguments with
    | none => Except.error PyError.jsonDecodeError
    | some obj =>
      if asyncTools || !entry.isSync then
        Except.ok [createYieldResponse resp "done" none nowStamp]
      else
        match toolBeh fc.funcName (stripYourResponse obj) with
        | ToolBehavior.raises => Except.error PyError.toolError
        | ToolBehavior.ok _content callback =>
          if callback then Except.ok continuationEvents
          else Except.ok [createYieldResponse resp "done" none nowStamp]

/-- llm.py lines 542 to 553 plus the surrounding except block at 560 to 564:
after the stream closes, normalize the response buffer; with no func_call,
yield the single done event with the saved message id; with a func_call,
delegate to _handle_function_call, converting a re-raised exception into the
fixed Error Occurred done event. -/
def afterStream (jparse : String → Option JObj)
    (toolBeh : String → JObj → ToolBehavior) (asyncTools : Bool)
    (st : StreamState) (continuationEvents : List Event) : List Event :=
  match st.funcCall with
  | none =>
    st.events ++ [createYieldResponse (pyNormalize st.response) "done" savedMessageId nowStamp]
  | some fc =>
    match handleFunctionCall jparse toolBeh fc st.funcArguments asyncTools
        (pyNormalize st.response) continuationEvents with
    | Except.ok evs => st.events ++ evs
    | Except.error _ =>
      st.events ++ [createYieldResponse (RespBuf.str "Error Occurred") "done" none nowStamp]

/-- LlmClient.llm_text_response (llm.py lines 476 to 564) as the list of events
the generator yields.  rounds gives the outcome of the i-th model call of the
turn (the callback path re-enters generation with the next round and with
async_tools left at its default False); fuel bounds the continuation depth,
which the source does not bound.  On a content-filter BadRequestError the
in-progress events already yielded stand and a single done event with the
body-dependent text follows; any other BadRequestError yields nothing further;
a generic exception yields the fixed Error Occurred done event. -/
def llmTextResponse (jparse : String → Option JObj)
    (toolBeh : String → JObj → ToolBehavior)
    (rounds : Nat → ModelOutcome) (asyncTools : Bool) : Nat → Nat → List Event
  | 0, _ => []
  | Nat.succ fuel, i =>
    match rounds i with
    | ModelOutcome.badRequest chunks isCF bodyMsg =>
      (processChunks chunks initState).events ++
        (if isCF then
          [createYieldResponse (RespBuf.str (contentFilterText bodyMsg)) "done" none nowStamp]
         else [])
    | ModelOutcome.genericError chunks =>
      (processChunks chunks initState).events ++
        [createYieldResponse (RespBuf.str "Error Occurred") "done" none nowStamp]
    | ModelOutcome.ok chunks =>
      afterStream jparse toolBeh asyncTools (processChunks chunks initState)
        (llmTextResponse jparse toolBeh rounds false fuel (i + 1))

/-! The begin-message path (llm.py, LlmClient.llm_text_begin_message,
lines 419 to 474). -/

/-- Outcome of the begin-message model call.  Each chunk carries an optional
content delta.  ok: the stream completed normally.  badRequest: the call raised
openai.BadRequestError before the locals message_id and end_time_stamp were
assigned (they are only assigned after the stream completes, lines 452 and
455).  genericEarlyError: any other exception raised before those assignments.
lateError: an exception raised after the done event was yielded (the Redis
store at line 463 re-raises on failure). -/
inductive BeginOutcome
  | ok (chunks : List (Option String))
  | badRequest (chunks : List (Option String)) (isContentFilter : Bool)
  | genericEarlyError (chunks : List (Option String))
  | lateError (chunks : List (Option String))
deriving DecidableEq

/-- The streaming loop of llm_text_begin_message: accumulate content deltas and
yield an in-progress event per delta; returns the events and the final buffer. -/
def beginStream : List (Option String) → String → List Event × String
  | [], acc => ([], acc)
  | none :: rest, acc => beginStream rest acc
  | some c :: rest, acc =>
    let acc2 := acc ++ c
    let p := beginStream rest acc2
    (createYieldResponse (RespBuf.str acc2) "in-progress" none nowStamp :: p.1, p.2)

/-- LlmClient.llm_text_begin_message: the events the generator yields, paired
with the exception that escapes the generator, if any.  Both except handlers
(lines 465 to 468 and 470 to 474) reference the locals message_id and
end_time_stamp; when the wrapped body raises before line 452 those locals are
unassigned, so the handler itself raises NameError out of the generator and no
terminal event is ever yielded.  When the failure happens after the done event
(lateError), the handler works and yields a second done event. -/
def llmTextBeginMessage : BeginOutcome → List Event × Option PyError
  | BeginOutcome.ok chunks =>
    let p := beginStream chunks ""
    (p.1 ++ [createYieldResponse (RespBuf.str p.2) "done" savedMessageId nowStamp], none)
  | BeginOutcome.badRequest chunks isCF =>
    let p := beginStream chunks ""
    if isCF then (p.1, some PyError.nameError) else (p.1, none)
  | BeginOutcome.genericEarlyError chunks =>
    let p := beginStream chunks ""
    (p.1, some PyError.nameError)
  | BeginOutcome.lateError chunks =>
    let p := beginStream chunks ""
    (p.1 ++ [createYieldResponse (RespBuf.str p.2) "done" savedMessageId nowStamp,
             createYieldResponse (RespBuf.str "Error Occurred") "done" savedMessageId nowStamp],
     none)

/-! The delivery channel and its two loops (app/api/sse.py event_generator and
_enqueue_chat_messages, app/utils/api_utils.py send_ping_pong_messages and
process_messages). -/

/-- An item on the asyncio queue: a ping-pong heartbeat string or a turn event. -/
inductive QItem
  | ping
  | ev (e : Event)
deriving DecidableEq

/-- The consumer drain of event_generator (sse.py lines 200 to 216): forward
queue items in arrival order; a ping-pong passes through; the first event with
is_final true is forwarded, then the stop event is set and the loop breaks.
The input list is the sequence of items that arrive on the queue; in the source
the loop blocks forever once the queue is exhausted without a final event. -/
def deliverLoop : List QItem → List QItem
  | [] => []
  | QItem.ping :: rest => QItem.ping :: deliverLoop rest
  | QItem.ev e :: rest =>
    if e.is_final then [QItem.ev e] else QItem.ev e :: deliverLoop rest

/-- The producer loop _enqueue_chat_messages (sse.py lines 248 to 277): an
unconditional while loop; each iteration first polls request.is_disconnected
and exits when it observes true, then, when the session prompt is present, runs
a full llm_text_response pass pushing every yielded event onto the queue, then
sleeps one second.  disconnected k is the value the k-th poll observes and
runEvents k is the event list of the k-th generator run; fuel bounds the
number of observed iterations.  The session_id and correlation_id fields the
wrapper adds to each dict are identity decoration and are omitted. -/
def enqueueChatMessages (disconnected : Nat → Bool) (runEvents : Nat → List Event)
    (hasPrompt : Bool) : Nat → Nat → List Event
  | 0, _ => []
  | Nat.succ fuel, k =>
    if disconnected k then []
    else (if hasPrompt then runEvents k else [])
           ++ enqueueChatMessages disconnected runEvents hasPrompt fuel (k + 1)

/-- send_ping_pong_messages (api_utils.py lines 183 to 201): while the stop
event is not set, sleep five seconds, then push one ping-pong message unless
the stop event is now set.  Each iteration k reads the stop signal twice: the
while condition is check 2k and the post-sleep guard is check 2k+1.  sig j is
the value observed by the j-th check; the result lists the interval indices at
which a heartbeat is pushed onto the queue, for fuel observed iterations. -/
def pingRun (sig : Nat → Bool) : Nat → Nat → List Nat
  | 0, _ => []
  | Nat.succ fuel, k =>
    if sig (2 * k) then []
    else (if sig (2 * k + 1) then [] else [k]) ++ pingRun sig fuel (k + 1)

/-! Derived predicates used in the claim statements. -/

/-- Number of events with is_final true. -/
def finalsCount (evs : List Event) : Nat := (evs.filter (fun e => e.is_final)).length

/-- True when events with is_final true occur only at the last position, so the
list carries at most one final event and nothing after it. -/
def noFinalExceptLast : List Event → Bool
  | [] => true
  | [_] => true
  | e :: rest => !e.is_final && noFinalExceptLast rest

/-- A chunk carrying only a tool-call-start delta. -/
def startChunk (id name : String) : Chunk :=
  { hasChoices := true, tool := some (ToolDelta.start id (some name)), content := none }

/-- A chunk carrying only a tool-call-argument delta. -/
def argChunk (s : String) : Chunk :=
  { hasChoices := true, tool := some (ToolDelta.args (some s)), content := none }

/-- A chunk carrying only a content delta. -/
def textChunk (s : String) : Chunk :=
  { hasChoices := true, tool := none, content := some s }

/-! Concrete instantiations used by the individual claims.  The jparse values
instantiate the external json.loads oracle at the single point where each
scenario consults it, consistently with the JSON semantics of the shown text. -/

/-- Claim C2 scenario: a text-only model round answering Hi. -/
def c2Rounds : Nat → ModelOutcome := fun _ => ModelOutcome.ok [textChunk "Hi"]

/-- Claim C2 scenario: one full generator run of the text-only round. -/
def c2Run : List Event :=
  llmTextResponse (fun _ => none) (fun _ _ => ToolBehavior.raises) c2Rounds false 1 0

/-- Claim C2 scenario: the producer loop observes the client as connected at
its first two polls and as disconnected at the third. -/
def c2Pushed : List Event :=
  enqueueChatMessages (fun k => decide (2 ≤ k)) (fun _ => c2Run) true 3 0

/-- Claim C3 scenario: the raw argument text of the Find_content call. -/
def c3ArgText : String :=
  "\x7b\x22search_word\x22: \x22excel\x22, \x22your_response\x22: \x22Sure, let me look\x22\x7d"

/-- Claim C3 scenario: json.loads on the argument text. -/
def c3Jparse : String → Option JObj := fun s =>
  if s == c3ArgText then
    some [("search_word", "excel"), ("your_response", "Sure, let me look")]
  else none

/-- Claim C3 scenario: the synchronous Find_content handler returns content and
no callback. -/
def c3ToolBeh : String → JObj → ToolBehavior :=
  fun _ _ => ToolBehavior.ok "Title: Advanced Excel" false

/-- Claim C3 scenario: the model opens a Find_content call and streams its
arguments in one delta. -/
def c3Chunks : List Chunk := [startChunk "call_1" "Find_content", argChunk c3ArgText]

/-- Claim C3 scenario: the model rounds of the turn. -/
def c3Rounds : Nat → ModelOutcome := fun _ => ModelOutcome.ok c3Chunks

/-- Claim C3 scenario: the events the turn yields. -/
def c3Events : List Event := llmTextResponse c3Jparse c3ToolBeh c3Rounds false 1 0

/-- Claim C4 scenario: the model names a tool absent from the registry. -/
def c4Chunks : List Chunk :=
  [textChunk "Let me search.", startChunk "call_9" "Search_the_web",
   argChunk "\x7b\x22query\x22: \x22python\x22\x7d"]

/-- Claim C4 scenario: json.loads would parse the argument text fine. -/
def c4Jparse : String → Option JObj := fun _ => some [("query", "python")]

/-- Claim C4 scenario: the model rounds of the turn. -/
def c4Rounds : Nat → ModelOutcome := fun _ => ModelOutcome.ok c4Chunks

/-- Claim C4 scenario: the events the turn yields. -/
def c4Events : List Event :=
  llmTextResponse c4Jparse (fun _ _ => ToolBehavior.ok "" false) c4Rounds false 1 0

/-- Claim C5 scenario: a truncated argument buffer that json.loads rejects. -/
def c5Chunks : List Chunk :=
  [textChunk "Hello", startChunk "call_2" "Find_content", argChunk "\x7b\x22search_word\x22: "]

/-- Claim C5 scenario: json.loads fails on the malformed buffer. -/
def c5Jparse : String → Option JObj := fun _ => none

/-- Claim C5 scenario: the model rounds of the turn. -/
def c5Rounds : Nat → ModelOutcome := fun _ => ModelOutcome.ok c5Chunks

/-- Claim C5 scenario: the events the turn yields. -/
def c5Events : List Event :=
  llmTextResponse c5Jparse (fun _ _ => ToolBehavior.ok "" false) c5Rounds false 1 0

/-- Claim C9 scenario: a content-filter rejection whose error body carries a
message field. -/
def c9RoundsWithMsg : Nat → ModelOutcome :=
  fun _ => ModelOutcome.badRequest [] true (some "Policy violation: weapons")

/-- Claim C9 scenario: the same rejection with no message field in the body. -/
def c9RoundsNoMsg : Nat → ModelOutcome := fun _ => ModelOutcome.badRequest [] true none

/-- Claim C9 scenario: events of the turn whose error body carries a message. -/
def c9EventsWithMsg : List Event :=
  llmTextResponse (fun _ => none) (fun _ _ => ToolBehavior.raises) c9RoundsWithMsg false 1 0

/-- Claim C9 scenario: events of the turn whose error body has no message. -/
def c9EventsNoMsg : List Event :=
  llmTextResponse (fun _ => none) (fun _ _ => ToolBehavior.raises) c9RoundsNoMsg false 1 0

/-- Claim C10 scenario: the raw argument text of the Prepare_Plan call. -/
def c10ArgText : String :=
  "\x7b\x22Duration\x22: \x223\x22, \x22your_response\x22: \x22On it, give me a moment\x22\x7d"

/-- Claim C10 scenario: json.loads on the argument text. -/
def c10Jparse : String → Option JObj := fun s =>
  if s == c10ArgText then
    some [("Duration", "3"), ("your_response", "On it, give me a moment")]
  else none

/-- Claim C10 scenario: the model opens a Prepare_Plan call, whose registry
entry has is_sync false (fire and forget). -/
def c10Chunks : List Chunk := [startChunk "call_3" "Prepare_Plan", argChunk c10ArgText]

/-- Claim C10 scenario: the model rounds of the turn. -/
def c10Rounds : Nat → ModelOutcome := fun _ => ModelOutcome.ok c10Chunks

/-- Helper: the content branch only ever yields in-progress events. -/
lemma contentStep_events_no_final (st : StreamState) (c : Option String)
    (h : st.events.all (fun e => !e.is_final) = true) :
    (contentStep st c).events.all (fun e => !e.is_final) = true := by
  cases c with
  | none => exact h
  | some t =>
    simp only [contentStep, List.all_append, Bool.and_eq_true, List.all_cons, List.all_nil]
    exact ⟨h, rfl, trivial⟩

/-- Helper: the tool branch never yields an event. -/
lemma toolStep_events (st : StreamState) (td : ToolDelta) (st2 : StreamState)
    (h : toolStep st td = some st2) : st2.events = st.events := by
  cases td with
  | start id name =>
    simp only [toolStep] at h
    cases hfc : st.funcCall with
    | some fc => rw [hfc] at h; cases h
    | none => rw [hfc] at h; cases h; rfl
  | args a =>
    simp only [toolStep] at h
    cases h; rfl

/-- Helper: the streaming loop only ever yields in-progress events. -/
lemma processChunks_events_no_final :
    ∀ (chunks : List Chunk) (st : StreamState),
      st.events.all (fun e => !e.is_final) = true →
      (processChunks chunks st).events.all (fun e => !e.is_final) = true := by
  intro chunks
  induction chunks with
  | nil => exact fun st h => h
  | cons ch rest ih =>
    intro st h
    obtain ⟨hc, tl, ct⟩ := ch
    rw [processChunks]
    cases hc with
    | false => exact ih st h
    | true =>
      cases tl with
      | none => exact ih _ (contentStep_events_no_final _ _ h)
      | some td =>
        cases hts : toolStep st td with
        | none => simp only [hts]; exact h
        | some st2 =>
          simp only [hts]
          exact ih _ (contentStep_events_no_final _ _
            (by rw [toolStep_events st td st2 hts]; exact h))

/-- Helper: extending a list with a non-final head keeps the predicate. -/
lemma noFinalExceptLast_cons (e : Event) (t : List Event)
    (he : e.is_final = false) (ht : noFinalExceptLast t = true) :
    noFinalExceptLast (e :: t) = true := by
  cases t with
  | nil => rfl
  | cons x xs =>
    show (!e.is_final && noFinalExceptLast (x :: xs)) = true
    rw [he, ht]
    rfl

/-- Helper: a list of non-final events satisfies the predicate. -/
lemma noFinalExceptLast_of_all (evs : List Event)
    (h : evs.all (fun e => !e.is_final) = true) : noFinalExceptLast evs = true := by
  induction evs with
  | nil => rfl
  | cons e rest ih =>
    simp only [List.all_cons, Bool.and_eq_true, Bool.not_eq_true'] at h
    exact noFinalExceptLast_cons e rest h.1 (ih h.2)

/-- Helper: prepending non-final events preserves the predicate. -/
lemma noFinalExceptLast_append (evs evs2 : List Event)
    (h1 : evs.all (fun e => !e.is_final) = true) (h2 : noFinalExceptLast evs2 = true) :
    noFinalExceptLast (evs ++ evs2) = true := by
  induction evs with
  | nil => simpa using h2
  | cons e rest ih =>
    simp only [List.all_cons, Bool.and_eq_true, Bool.not_eq_true'] at h1
    exact noFinalExceptLast_cons e (rest ++ evs2) h1.1 (ih h1.2)

/-- Helper: every successful result of _handle_function_call is either the
single done event carrying the response buffer or the continuation events. -/
lemma handleFunctionCall_ok_cases {jparse : String → Option JObj}
    {toolBeh : String → JObj → ToolBehavior} {fc : FuncCall} {fa : String}
    {aT : Bool} {resp : RespBuf} {cont evs : List Event}
    (h : handleFunctionCall jparse toolBeh fc fa aT resp cont = Except.ok evs) :
    evs = [createYieldResponse resp "done" none nowStamp] ∨ evs = cont := by
  unfold handleFunctionCall at h
  split at h
  · cases h
  · split at h
    · cases h
    · split at h
      · left; exact (Except.ok.inj h).symm
      · split at h
        · cases h
        · split at h
          · right; exact (Except.ok.inj h).symm
          · left; exact (Except.ok.inj h).symm

/-- Helper: the tail of llm_text_response appends either a single done event or
well-shaped continuation events to the in-progress prefix. -/
lemma afterStream_no_final_except_last (jparse : String → Option JObj)
    (toolBeh : String → JObj → ToolBehavior) (aT : Bool) (st : StreamState)
    (cont : List Event)
    (hst : st.events.all (fun e => !e.is_final) = true)
    (hcont : noFinalExceptLast cont = true) :
    noFinalExceptLast (afterStream jparse toolBeh aT st cont) = true := by
  unfold afterStream
  split
  · exact noFinalExceptLast_append _ _ hst rfl
  · split
    · rename_i fc hfc evs hh
      rcases handleFunctionCall_ok_cases hh with h | h
      · rw [h]; exact noFinalExceptLast_append _ _ hst rfl
      · rw [h]; exact noFinalExceptLast_append _ _ hst hcont
    · exact noFinalExceptLast_append _ _ hst rfl

/-- Claim C2 (amended): a single run of the llm_text_response generator yields
at most one Event with is_final true, and yields nothing after it, for every
model stream, every tool behavior and every continuation depth.  The original
claim fails only because the chat-enqueue loop re-invokes the generator for the
same turn until it observes client disconnect (see the counterexample). -/
theorem c2_amended_single_run (jparse : String → Option JObj)
    (toolBeh : String → JObj → ToolBehavior) (rounds : Nat → ModelOutcome) :
    ∀ (fuel : Nat) (asyncTools : Bool) (i : Nat),
      noFinalExceptLast (llmTextResponse jparse toolBeh rounds asyncTools fuel i) = true := by
  intro fuel
  induction fuel with
  | zero => intro aT i; rfl
  | succ fuel ih =>
    intro aT i
    rw [llmTextResponse]
    cases hro : rounds i with
    | badRequest chunks isCF bodyMsg =>
      have hev := processChunks_events_no_final chunks initState rfl
      cases isCF
      · exact noFinalExceptLast_append _ _ hev rfl
      · exact noFinalExceptLast_append _ _ hev rfl
    | genericError chunks =>
      exact noFinalExceptLast_append _ _ (processChunks_events_no_final chunks initState rfl) rfl
    | ok chunks =>
      exact afterStream_no_final_except_last _ _ _ _ _
        (processChunks_events_no_final chunks initState rfl) (ih false (i + 1))

/-- Helper: a list of non-final events followed by one final event has exactly
one final event. -/
lemma finalsCount_append_done (evs : List Event) (e : Event)
    (h : evs.all (fun x => !x.is_final) = true) (he : e.is_final = true) :
    finalsCount (evs ++ [e]) = 1 := by
  induction evs with
  | nil => simp [finalsCount, List.filter, he]
  | cons x xs ih =>
    simp only [List.all_cons, Bool.and_eq_true, Bool.not_eq_true'] at h
    simp only [finalsCount, List.cons_append, List.filter_cons, h.1]
    exact ih h.2

/-- Claim C2 (counterexample): with the client prompt present and the
disconnect poll observing false at its first two checks, the chat-enqueue loop
pushes two complete generator runs for the same turn onto the Delivery Channel:
two is_final Events, with further Events after the first final one. -/
theorem c2_counterexample_two_finals :
    finalsCount c2Pushed = 2 ∧ noFinalExceptLast c2Pushed = false := by
  constructor <;> rfl

/-- Claim C1 (code bug): on the begin-message turn, a content-filter rejection
raised by the model call makes the except handler of llm_text_begin_message
reference the still-unassigned locals message_id and end_time_stamp, so the
handler itself raises NameError out of the generator: no Event at all is
yielded, no is_final Event is ever enqueued, and the Transport Adapter delivers
zero terminal Events for the turn, contradicting the exactly-one-final
contract the claim states. -/
theorem c1_begin_content_filter_bug :
    llmTextBeginMessage (BeginOutcome.badRequest [] true) = ([], some PyError.nameError)
    ∧ finalsCount (llmTextBeginMessage (BeginOutcome.badRequest [] true)).1 = 0
    ∧ deliverLoop ((llmTextBeginMessage (BeginOutcome.badRequest [] true)).1.map QItem.ev)
        = [] := by
  refine ⟨rfl, rfl, rfl⟩

/-- Claim C3 (amended): when a synchronous tool returns continuation false,
the single is_final Event of the turn carries the accumulated response buffer
(the extracted aside text or the streamed text) as its answer, for every value
of the returned tool content; the tool content itself is only persisted as a
function-role message and never reaches the Event. -/
theorem c3_amended (jparse : String → Option JObj)
    (toolBeh : String → JObj → ToolBehavior) (rounds : Nat → ModelOutcome)
    (asyncTools : Bool) (fuel i : Nat) (chunks : List Chunk) (fc : FuncCall)
    (obj : JObj) (content : String)
    (hro : rounds i = ModelOutcome.ok chunks)
    (hfc : (processChunks chunks initState).funcCall = some fc)
    (hreg : toolsFunctions fc.funcName = some { isSync := true })
    (hasy : asyncTools = false)
    (hp : jparse (processChunks chunks initState).funcArguments = some obj)
    (hbeh : toolBeh fc.funcName (stripYourResponse obj) = ToolBehavior.ok content false) :
    llmTextResponse jparse toolBeh rounds asyncTools (fuel + 1) i
      = (processChunks chunks initState).events
        ++ [createYieldResponse (pyNormalize (processChunks chunks initState).response)
              "done" none nowStamp] := by
  subst hasy
  simp only [llmTextResponse, hro]
  simp only [afterStream, hfc]
  simp only [handleFunctionCall, hreg, hp, hbeh]
  simp

/-- Claim C3 (witness): the amended statement evaluated on the concrete
Find_content scenario of the spec (Scenario B). -/
theorem c3_amended_witness :
    llmTextResponse c3Jparse c3ToolBeh c3Rounds false 1 0
      = (processChunks c3Chunks initState).events
        ++ [createYieldResponse (pyNormalize (processChunks c3Chunks initState).response)
              "done" none nowStamp] :=
  c3_amended c3Jparse c3ToolBeh c3Rounds false 0 0 c3Chunks
    { id := "call_1", funcName := "Find_content" }
    [("search_word", "excel"), ("your_response", "Sure, let me look")]
    "Title: Advanced Excel" rfl rfl rfl rfl rfl rfl

/-- Claim C3 (counterexample): in the Scenario B turn the tool handler
returns the content Title colon Advanced Excel with continuation false, yet the
single is_final Event answers with the aside text Sure, let me look; the claim
as stated, that the Event carries the returned tool content, is false. -/
theorem c3_counterexample_aside_not_content :
    c3Events
      = [createYieldResponse (RespBuf.str "Sure, let me look") "done" none nowStamp]
    ∧ RespBuf.str "Sure, let me look" ≠ RespBuf.str "Title: Advanced Excel" := by
  exact ⟨rfl, by decide⟩

/-- Claim C4 (amended): when the model names a tool absent from the registry,
functions.get returns None and the subsequent attribute access raises
AttributeError; the generic handler of llm_text_response converts it into a
single terminal Event with the fixed text Error Occurred.  The text buffer is
not used and an error message is surfaced, unlike the claim states. -/
theorem c4_amended (jparse : String → Option JObj)
    (toolBeh : String → JObj → ToolBehavior) (rounds : Nat → ModelOutcome)
    (asyncTools : Bool) (fuel i : Nat) (chunks : List Chunk) (fc : FuncCall)
    (hro : rounds i = ModelOutcome.ok chunks)
    (hfc : (processChunks chunks initState).funcCall = some fc)
    (hreg : toolsFunctions fc.funcName = none) :
    llmTextResponse jparse toolBeh rounds asyncTools (fuel + 1) i
      = (processChunks chunks initState).events
        ++ [createYieldResponse (RespBuf.str "Error Occurred") "done" none nowStamp] := by
  simp only [llmTextResponse, hro]
  simp only [afterStream, hfc]
  simp only [handleFunctionCall, hreg]

/-- Claim C4 (witness): the amended statement evaluated on a concrete turn
naming the unregistered tool Search_the_web. -/
theorem c4_amended_witness :
    llmTextResponse c4Jparse (fun _ _ => ToolBehavior.ok "" false) c4Rounds false 1 0
      = (processChunks c4Chunks initState).events
        ++ [createYieldResponse (RespBuf.str "Error Occurred") "done" none nowStamp] :=
  c4_amended c4Jparse (fun _ _ => ToolBehavior.ok "" false) c4Rounds false 0 0 c4Chunks
    { id := "call_9", funcName := "Search_the_web" } rfl rfl rfl

/-- Claim C4 (counterexample): a turn whose tool-call names Search_the_web
ends with the terminal answer Error Occurred, not with the accumulated text
buffer Let me search., refuting the claim that the lookup is treated as
no-tool with the text buffer as the answer and no error surfaced. -/
theorem c4_counterexample_error_surfaced :
    c4Events
      = [createYieldResponse (RespBuf.str "Let me search.") "in-progress" none nowStamp,
         createYieldResponse (RespBuf.str "Error Occurred") "done" none nowStamp]
    ∧ RespBuf.str "Error Occurred" ≠ RespBuf.str "Let me search." := by
  exact ⟨rfl, by decide⟩

/-- Claim C5 (amended): when the accumulated argument buffer fails to parse
as JSON and the named tool is registered, json.loads raises, the exception is
re-raised by _handle_function_call and caught by the generic handler of
llm_text_response, which emits a single terminal Event with the fixed text
Error Occurred; no raw exception reaches the client, but the text buffer is
not used as the answer, unlike the claim states. -/
theorem c5_amended (jparse : String → Option JObj)
    (toolBeh : String → JObj → ToolBehavior) (rounds : Nat → ModelOutcome)
    (asyncTools : Bool) (fuel i : Nat) (chunks : List Chunk) (fc : FuncCall)
    (entry : ToolEntry)
    (hro : rounds i = ModelOutcome.ok chunks)
    (hfc : (processChunks chunks initState).funcCall = some fc)
    (hreg : toolsFunctions fc.funcName = some entry)
    (hp : jparse (processChunks chunks initState).funcArguments = none) :
    llmTextResponse jparse toolBeh rounds asyncTools (fuel + 1) i
      = (processChunks chunks initState).events
        ++ [createYieldResponse (RespBuf.str "Error Occurred") "done" none nowStamp] := by
  simp only [llmTextResponse, hro]
  simp only [afterStream, hfc]
  simp only [handleFunctionCall, hreg, hp]

/-- Claim C5 (witness): the amended statement evaluated on a concrete turn
with a truncated JSON argument buffer. -/
theorem c5_amended_witness :
    llmTextResponse c5Jparse (fun _ _ => ToolBehavior.ok "" false) c5Rounds false 1 0
      = (processChunks c5Chunks initState).events
        ++ [createYieldResponse (RespBuf.str "Error Occurred") "done" none nowStamp] :=
  c5_amended c5Jparse (fun _ _ => ToolBehavior.ok "" false) c5Rounds false 0 0 c5Chunks
    { id := "call_2", funcName := "Find_content" } { isSync := true } rfl rfl rfl rfl

/-- Claim C5 (counterexample): with text buffer Hello and a malformed
argument buffer, the terminal answer is Error Occurred, not Hello, refuting
the claim that the turn reaches Terminal with the text buffer as the answer
and no error Event. -/
theorem c5_counterexample_buffer_not_used :
    c5Events
      = [createYieldResponse (RespBuf.str "Hello") "in-progress" none nowStamp,
         createYieldResponse (RespBuf.str "Error Occurred") "done" none nowStamp]
    ∧ RespBuf.str "Error Occurred" ≠ RespBuf.str "Hello" := by
  exact ⟨rfl, by decide⟩

/-- Helper for claim C6, generalized over the loop state: once the state has an
open func_call, a further tool-call-start chunk makes the loop break, so the
whole run is insensitive to that chunk and to everything after it. -/
lemma processChunks_break_suffix (idB : String) (nameB : Option String)
    (cnt : Option String) (ys : List Chunk) :
    ∀ (xs : List Chunk) (st : StreamState),
      (processChunks xs st).funcCall.isSome = true →
      processChunks
          (xs ++ { hasChoices := true, tool := some (ToolDelta.start idB nameB)
                 , content := cnt } :: ys) st
        = processChunks xs st := by
  intro xs
  induction xs with
  | nil =>
    intro st h
    have h2 : st.funcCall.isSome = true := h
    obtain ⟨fc, hfc⟩ := Option.isSome_iff_exists.mp h2
    simp only [List.nil_append, processChunks, toolStep, hfc]
    simp
  | cons x xs ih =>
    intro st h
    obtain ⟨hc, tl, ct⟩ := x
    rw [processChunks] at h
    rw [List.cons_append, processChunks]
    conv_rhs => rw [processChunks]
    cases hc with
    | false => exact ih st h
    | true =>
      cases tl with
      | none => exact ih _ h
      | some td =>
        cases hts : toolStep st td with
        | none => simp only [hts] at h ⊢; simp
        | some st2 =>
          simp only [hts] at h ⊢
          exact ih _ h

/-- Claim C6 (confirmed): once a tool call is open, a second
tool-call-start chunk terminates fragment consumption: the resulting loop
state, hence the dispatched tool, the argument buffer and the yielded events,
is exactly the state accumulated before that chunk, whatever the second
chunk and the remainder of the stream contain.  The second tool is never
buffered or executed. -/
theorem c6_first_tool_call_wins (xs ys : List Chunk) (idB : String)
    (nameB cnt : Option String)
    (h : (processChunks xs initState).funcCall.isSome = true) :
    processChunks
        (xs ++ { hasChoices := true, tool := some (ToolDelta.start idB nameB)
               , content := cnt } :: ys) initState
      = processChunks xs initState :=
  processChunks_break_suffix idB nameB cnt ys xs initState h

/-- Claim C6 (witness): the statement evaluated on a concrete stream whose
second tool-call-start names Role_To_Skill after an open Find_content call. -/
theorem c6_first_tool_call_wins_witness :
    processChunks
        ([startChunk "call_a" "Find_content"]
          ++ { hasChoices := true, tool := some (ToolDelta.start "call_b" (some "Role_To_Skill"))
             , content := none }
            :: [argChunk "\x7b\x22role\x22: \x22PM\x22\x7d"]) initState
      = processChunks [startChunk "call_a" "Find_content"] initState :=
  c6_first_tool_call_wins [startChunk "call_a" "Find_content"]
    [argChunk "\x7b\x22role\x22: \x22PM\x22\x7d"] "call_b" (some "Role_To_Skill") none rfl

/-- Helper: left fold of append over a list of strings. -/
lemma foldl_append_eq (parts : List String) :
    ∀ a : String, List.foldl (fun x y => x ++ y) a parts = a ++ String.join parts := by
  induction parts with
  | nil => intro a; rw [show String.join [] = "" from rfl, String.append_empty]; rfl
  | cons p ps ih =>
    intro a
    have h1 : List.foldl (fun x y => x ++ y) a (p :: ps)
        = List.foldl (fun x y => x ++ y) (a ++ p) ps := rfl
    have h2 : String.join (p :: ps) = List.foldl (fun x y => x ++ y) ("" ++ p) ps := rfl
    rw [h1, ih (a ++ p), h2, ih ("" ++ p), String.empty_append, String.append_assoc]

/-- Helper: a run of argument-delta chunks concatenates their texts, in arrival
order, onto the accumulated argument buffer. -/
lemma processChunks_argChunks (parts : List String) :
    ∀ st : StreamState,
      (processChunks (parts.map argChunk) st).funcArguments
        = st.funcArguments ++ String.join parts := by
  induction parts with
  | nil => intro st; rw [show String.join [] = "" from rfl, String.append_empty]; rfl
  | cons p ps ih =>
    intro st
    have hj : String.join (p :: ps) = p ++ String.join ps := by
      have h2 : String.join (p :: ps) = List.foldl (fun x y => x ++ y) ("" ++ p) ps := rfl
      rw [h2, foldl_append_eq, String.empty_append]
    have hstep : processChunks ((p :: ps).map argChunk) st
        = processChunks (ps.map argChunk)
            { st with funcArguments := st.funcArguments ++ p
                    , response :=
                        if (findYourResponse (st.funcArguments ++ p)).isEmpty
                        then st.response
                        else RespBuf.list (findYourResponse (st.funcArguments ++ p)) } := rfl
    rw [hstep, ih, hj, ← String.append_assoc]

/-- Claim C7 (confirmed): for a tool call whose argument text arrives split
into any list of argument-delta fragments, the accumulated argument buffer
equals the concatenation of the fragments in arrival order, so any JSON parse
of the buffer, modelled by an arbitrary jparse function, gives exactly the
same result as when the whole text arrives in a single fragment. -/
theorem c7_chunk_boundary_independence (id name : String) (parts : List String)
    (jparse : String → Option JObj) :
    jparse ((processChunks (startChunk id name :: parts.map argChunk)
                initState).funcArguments)
      = jparse ((processChunks [startChunk id name, argChunk (String.join parts)]
                initState).funcArguments) := by
  have h1 : processChunks (startChunk id name :: parts.map argChunk) initState
      = processChunks (parts.map argChunk)
          { funcCall := some { id := id, funcName := name }
          , funcArguments := "", response := RespBuf.str "", events := [] } := rfl
  have hL : (processChunks (startChunk id name :: parts.map argChunk)
                initState).funcArguments = "" ++ String.join parts := by
    rw [h1]
    exact processChunks_argChunks parts _
  have hR : (processChunks [startChunk id name, argChunk (String.join parts)]
                initState).funcArguments = "" ++ String.join parts := rfl
  rw [hL, hR]

/-- Helper for claim C8, generalized over the start index: assuming the stop
signal is monotone (an asyncio Event is never cleared in the source), a
heartbeat is pushed for interval k exactly when k is within the observation
horizon and the post-sleep check of iteration k still observes the signal
unset. -/
lemma pingRun_mem_iff (sig : Nat → Bool)
    (mono : ∀ i j, i ≤ j → sig i = true → sig j = true) :
    ∀ (fuel j k : Nat),
      k ∈ pingRun sig fuel j ↔ (j ≤ k ∧ k < j + fuel ∧ sig (2 * k + 1) = false) := by
  intro fuel
  induction fuel with
  | zero =>
    intro j k
    simp only [pingRun, List.not_mem_nil, false_iff]
    rintro ⟨h1, h2, _⟩
    omega
  | succ fuel ih =>
    intro j k
    rw [pingRun]
    by_cases h0 : sig (2 * j) = true
    · rw [if_pos h0]
      simp only [List.not_mem_nil, false_iff]
      rintro ⟨hjk, hlt, hsf⟩
      have hs : sig (2 * k + 1) = true := mono (2 * j) (2 * k + 1) (by omega) h0
      rw [hs] at hsf
      cases hsf
    · rw [if_neg h0]
      by_cases h1 : sig (2 * j + 1) = true
      · rw [if_pos h1]
        rw [List.nil_append, ih (j + 1) k]
        constructor
        · rintro ⟨hj1, hlt, hsf⟩
          exact ⟨by omega, by omega, hsf⟩
        · rintro ⟨hjk, hlt, hsf⟩
          have hkj : k ≠ j := by
            intro he
            rw [he] at hsf
            rw [hsf] at h1
            cases h1
          exact ⟨by omega, by omega, hsf⟩
      · rw [if_neg h1]
        rw [List.singleton_append, List.mem_cons, ih (j + 1) k]
        constructor
        · rintro (rfl | ⟨hj1, hlt, hsf⟩)
          · exact ⟨Nat.le_refl k, by omega, by
              cases hb : sig (2 * k + 1)
              · rfl
              · exact absurd hb h1⟩
          · exact ⟨by omega, by omega, hsf⟩
        · rintro ⟨hjk, hlt, hsf⟩
          by_cases hkj : k = j
          · exact Or.inl hkj
          · exact Or.inr ⟨by omega, by omega, hsf⟩

/-- Claim C8 (confirmed): under a monotone stop signal, the Keepalive
Emitter pushes a heartbeat for interval k exactly when k is inside the
observation horizon and the post-sleep check of that interval still observes
the signal unset.  In particular a heartbeat is pushed every interval while
the signal is unset, and never after the signal has been observed set, so at
most one more interval can elapse after the signal is set. -/
theorem c8_heartbeat_iff (sig : Nat → Bool)
    (mono : ∀ i j, i ≤ j → sig i = true → sig j = true) (fuel k : Nat) :
    k ∈ pingRun sig fuel 0 ↔ (k < fuel ∧ sig (2 * k + 1) = false) := by
  rw [pingRun_mem_iff sig mono fuel 0 k]
  constructor
  · rintro ⟨_, h2, h3⟩
    exact ⟨by omega, h3⟩
  · rintro ⟨h1, h3⟩
    exact ⟨Nat.zero_le k, by omega, h3⟩

/-- Claim C8 (witness): the statement evaluated on a concrete signal that
becomes set at check index nine, over five observed intervals. -/
theorem c8_heartbeat_iff_witness :
    (3 ∈ pingRun (fun i => decide (9 ≤ i)) 5 0)
      ↔ (3 < 5 ∧ (fun i : Nat => decide (9 ≤ i)) (2 * 3 + 1) = false) :=
  c8_heartbeat_iff (fun i => decide (9 ≤ i))
    (fun i j hij hi => by
      simp only [decide_eq_true_eq] at hi ⊢
      omega) 5 3

/-- Claim C9 (amended): a content-filter rejection aborts streaming at once
and yields exactly one terminal Event, with no retry within the turn; the
apology text, however, is the message field of the model error body when that
field is present, and the fixed fallback text only otherwise, so the text does
depend on the error payload, unlike the claim states. -/
theorem c9_amended (jparse : String → Option JObj)
    (toolBeh : String → JObj → ToolBehavior) (rounds : Nat → ModelOutcome)
    (asyncTools : Bool) (fuel i : Nat) (chunks : List Chunk) (bodyMsg : Option String)
    (hro : rounds i = ModelOutcome.badRequest chunks true bodyMsg) :
    llmTextResponse jparse toolBeh rounds asyncTools (fuel + 1) i
      = (processChunks chunks initState).events
        ++ [createYieldResponse (RespBuf.str (contentFilterText bodyMsg))
              "done" none nowStamp]
    ∧ finalsCount (llmTextResponse jparse toolBeh rounds asyncTools (fuel + 1) i) = 1 := by
  have heq : llmTextResponse jparse toolBeh rounds asyncTools (fuel + 1) i
      = (processChunks chunks initState).events
        ++ [createYieldResponse (RespBuf.str (contentFilterText bodyMsg))
              "done" none nowStamp] := by
    simp only [llmTextResponse, hro]
    simp
  refine ⟨heq, ?_⟩
  rw [heq]
  exact finalsCount_append_done _ _ (processChunks_events_no_final chunks initState rfl) rfl

/-- Claim C9 (witness): the amended statement evaluated on a concrete
rejection whose body carries a message field. -/
theorem c9_amended_witness :
    llmTextResponse (fun _ => none) (fun _ _ => ToolBehavior.raises) c9RoundsWithMsg false 1 0
      = (processChunks [] initState).events
        ++ [createYieldResponse
              (RespBuf.str (contentFilterText (some "Policy violation: weapons")))
              "done" none nowStamp]
    ∧ finalsCount (llmTextResponse (fun _ => none) (fun _ _ => ToolBehavior.raises)
        c9RoundsWithMsg false 1 0) = 1 :=
  c9_amended (fun _ => none) (fun _ _ => ToolBehavior.raises) c9RoundsWithMsg false 0 0
    [] (some "Policy violation: weapons") rfl

/-- Claim C9 (counterexample): two content-filter rejections that differ
only in the message field of the error body produce different terminal Events,
refuting the claim that the apology text is fixed and independent of the model
error payload. -/
theorem c9_counterexample_payload_dependent :
    c9EventsWithMsg
      = [createYieldResponse (RespBuf.str "Policy violation: weapons") "done" none nowStamp]
    ∧ c9EventsWithMsg ≠ c9EventsNoMsg := by
  exact ⟨rfl, by decide⟩

/-- Claim C10 (confirmed): when the dispatched tool has is_sync false, the
handler is detached (create_task) and not awaited: the single is_final Event
of the turn carries the extracted your_response aside as its answer, and the
whole event stream of the turn is independent of the tool handler result, as
witnessed by equality under two arbitrary tool behaviors. -/
theorem c10_fire_and_forget (jparse : String → Option JObj)
    (toolBeh toolBeh2 : String → JObj → ToolBehavior) (rounds : Nat → ModelOutcome)
    (asyncTools : Bool) (fuel i : Nat) (chunks : List Chunk) (fc : FuncCall)
    (obj : JObj) (m : String) (ms : List String)
    (hro : rounds i = ModelOutcome.ok chunks)
    (hfc : (processChunks chunks initState).funcCall = some fc)
    (hreg : toolsFunctions fc.funcName = some { isSync := false })
    (hp : jparse (processChunks chunks initState).funcArguments = some obj)
    (hresp : (processChunks chunks initState).response = RespBuf.list (m :: ms)) :
    llmTextResponse jparse toolBeh rounds asyncTools (fuel + 1) i
      = (processChunks chunks initState).events
        ++ [createYieldResponse (RespBuf.str m) "done" none nowStamp]
    ∧ llmTextResponse jparse toolBeh rounds asyncTools (fuel + 1) i
      = llmTextResponse jparse toolBeh2 rounds asyncTools (fuel + 1) i := by
  have key : ∀ tb : String → JObj → ToolBehavior,
      llmTextResponse jparse tb rounds asyncTools (fuel + 1) i
        = (processChunks chunks initState).events
          ++ [createYieldResponse (RespBuf.str m) "done" none nowStamp] := by
    intro tb
    simp only [llmTextResponse, hro]
    simp only [afterStream, hfc]
    simp only [handleFunctionCall, hreg, hp]
    simp [pyNormalize, truthy, hresp]
  exact ⟨key toolBeh, (key toolBeh).trans (key toolBeh2).symm⟩

/-- Claim C10 (witness): the statement evaluated on a concrete Prepare_Plan
turn, with a raising handler on one side and a succeeding handler on the
other. -/
theorem c10_fire_and_forget_witness :
    llmTextResponse c10Jparse (fun _ _ => ToolBehavior.raises) c10Rounds false 1 0
      = (processChunks c10Chunks initState).events
        ++ [createYieldResponse (RespBuf.str "On it, give me a moment") "done" none nowStamp]
    ∧ llmTextResponse c10Jparse (fun _ _ => ToolBehavior.raises) c10Rounds false 1 0
      = llmTextResponse c10Jparse (fun _ _ => ToolBehavior.ok "plan built" true)
          c10Rounds false 1 0 :=
  c10_fire_and_forget c10Jparse (fun _ _ => ToolBehavior.raises)
    (fun _ _ => ToolBehavior.ok "plan built" true) c10Rounds false 0 0 c10Chunks
    { id := "call_3", funcName := "Prepare_Plan" }
    [("Duration", "3"), ("your_response", "On it, give me a moment")]
    "On it, give me a moment" [] rfl rfl rfl rfl rfl
